import Mathlib

set_option maxHeartbeats 1000000

namespace ElasticFlow

/-! Shallow embedding of the elasticflow condition/aggregation compiler:
`src/elasticflow/core/conditions.py`, `src/elasticflow/core/fields.py` and
`src/elasticflow/builders/dsl.py`.  Query objects produced through the
external `elasticsearch.dsl` library (`Q`, `Search`) are modelled by an
explicit query tree `EsQ` with its wire serialization `EsQ.toJson`, and the
library's `~`, `&`, `|` operators are modelled from that library's
`Query.__invert__/__and__/__or__` and `Bool` overrides. -/

/-- JSON-like wire values (Python scalars, lists and dicts). Dicts are
insertion-ordered association lists, as in Python. -/
inductive Json where
  | null : Json
  | bool : Bool → Json
  | int : Int → Json
  | str : String → Json
  | arr : List Json → Json
  | obj : List (String × Json) → Json
deriving Repr

/-- Python values that can appear as the `value` of a condition dict. -/
inductive PyVal where
  | str : String → PyVal
  | int : Int → PyVal
  | bool : Bool → PyVal
  | none : PyVal
  | list : List PyVal → PyVal
deriving Repr

/-- A `minimum_should_match` value: Python `int | str`. -/
inductive MsmVal where
  | int : Int → MsmVal
  | str : String → MsmVal
deriving DecidableEq, Repr

/-- Exceptions raised by the dataclass validators (`ValueError`) or dict
access (`KeyError`). -/
inductive PyErr where
  | valueError : String → PyErr
  | keyError : String → PyErr
deriving DecidableEq, Repr

mutual
/-- JSON serialization of a `PyVal` (identity on scalars). -/
def PyVal.toJson : PyVal → Json
  | .str s => .str s
  | .int n => .int n
  | .bool b => .bool b
  | .none => .null
  | .list xs => .arr (PyVal.toJsonList xs)

def PyVal.toJsonList : List PyVal → List Json
  | [] => []
  | x :: xs => x.toJson :: PyVal.toJsonList xs
end

/-- `str(v)` as used by the f-string `f"*{v}*"` in the wildcard branches
(list rendering is approximate; only scalars reach it in practice). -/
def PyVal.pyStr : PyVal → String
  | .str s => s
  | .int n => toString n
  | .bool b => if b then "True" else "False"
  | .none => "None"
  | .list _ => "[...]"

/-- Is this Python value a list (`isinstance(value, list)`)? -/
def PyVal.isList : PyVal → Bool
  | .list _ => true
  | _ => false

/-- Query objects built by the compiler: leaf queries
(`terms`/`wildcard`/`range`/`exists`/`query_string`), bool queries with
must / must_not / should / filter clauses and an optional
`minimum_should_match`, and nested-scope wrappers. -/
inductive EsQ where
  | leaf : String → Json → EsQ
  | boolq : List EsQ → List EsQ → List EsQ → List EsQ → Option MsmVal → EsQ
  | nested : String → EsQ → Option String → Option Json → EsQ
deriving Repr

/-- The serialized body of a bool query: parameters are present only when
set (`elasticsearch.dsl` serializes only the params a query was built
with). -/
def boolBody (must mustNot should filt : List Json) (msm : Option MsmVal) :
    List (String × Json) :=
  (if must.isEmpty then [] else [("must", Json.arr must)]) ++
  (if mustNot.isEmpty then [] else [("must_not", Json.arr mustNot)]) ++
  (if should.isEmpty then [] else [("should", Json.arr should)]) ++
  (if filt.isEmpty then [] else [("filter", Json.arr filt)]) ++
  (match msm with
   | some (.int n) => [("minimum_should_match", Json.int n)]
   | some (.str s) => [("minimum_should_match", Json.str s)]
   | none => [])

mutual
/-- Wire serialization of a query (`Q(...).to_dict()`). -/
def EsQ.toJson : EsQ → Json
  | .leaf kind body => .obj [(kind, body)]
  | .boolq must mustNot should filt msm =>
      .obj [("bool", .obj (boolBody (EsQ.toJsonList must) (EsQ.toJsonList mustNot)
        (EsQ.toJsonList should) (EsQ.toJsonList filt) msm))]
  | .nested path query scoreMode innerHits =>
      .obj [("nested", .obj (
        [("path", Json.str path), ("query", query.toJson)] ++
        (match scoreMode with | some m => [("score_mode", Json.str m)] | none => []) ++
        (match innerHits with | some ih => [("inner_hits", ih)] | none => [])))]

def EsQ.toJsonList : List EsQ → List Json
  | [] => []
  | q :: qs => q.toJson :: EsQ.toJsonList qs
end

/-- Is this a bool query? (`isinstance(q, Bool)`). -/
def EsQ.isBoolq : EsQ → Bool
  | .boolq _ _ _ _ _ => true
  | _ => false

/-- Python truthiness of an optional `minimum_should_match` value, as in
`getattr(q, "minimum_should_match", None)` inside an `any(...)`. -/
def msmTruthy : Option MsmVal → Bool
  | Option.none => false
  | some (.int n) => n != 0
  | some (.str s) => s != ""

/-- `Bool._min_should_match` from `elasticsearch.dsl`: the explicit value
when set, else 0 when there is no should clause or there are must/filter
clauses, else 1. -/
def minShouldMatchOf (must should filt : List EsQ) (msm : Option MsmVal) : MsmVal :=
  match msm with
  | some v => v
  | Option.none => .int (if should.isEmpty || !(must.isEmpty && filt.isEmpty) then 0 else 1)

/-- Compare a `minimum_should_match` value against an integer (a string
value never equals an int in Python). -/
def msmEqInt (v : MsmVal) (n : Int) : Bool :=
  match v with
  | .int i => i == n
  | .str _ => false

mutual
/-- The `~` operator, modelled from `elasticsearch.dsl`
(`Query.__invert__` and `Bool.__invert__`): a non-bool query negates to a
bool query with a single `must_not` clause. -/
def qNot : EsQ → EsQ
  | .boolq must mustNot should filt msm =>
      let negs := qNotList must ++ qNotList filt ++ mustNot ++
        (if !should.isEmpty &&
            msmEqInt (minShouldMatchOf must should filt msm) should.length then
          qNotList should
         else if !should.isEmpty then
          [EsQ.boolq [] should [] [] Option.none]
         else [])
      match negs with
      | [q] => q
      | _ => .boolq [] [] negs [] Option.none
  | q => .boolq [] [q] [] [] Option.none

def qNotList : List EsQ → List EsQ
  | [] => []
  | q :: qs => qNot q :: qNotList qs
end

/-- Is this a bool query with no must/must_not/filter clauses and no truthy
`minimum_should_match` — the mergeable case of `Bool.__or__`? -/
def pureShould : EsQ → Bool
  | .boolq must mustNot _ filt msm =>
      must.isEmpty && mustNot.isEmpty && filt.isEmpty && !msmTruthy msm
  | _ => false

/-- The should clauses of a bool query. -/
def shouldOf : EsQ → List EsQ
  | .boolq _ _ should _ _ => should
  | _ => []

/-- Merge step of `Bool.__or__`: `base` is a mergeable pure-should bool; the
target's should clauses are appended when it is also pure-should, otherwise
the whole target is appended. -/
def mergeShould (base target : EsQ) : EsQ :=
  match base with
  | .boolq bm bmn bsh bf bmsm =>
      if pureShould target then .boolq bm bmn (bsh ++ shouldOf target) bf bmsm
      else .boolq bm bmn (bsh ++ [target]) bf bmsm
  | q => q

/-- `Bool.__or__(self, other)` from `elasticsearch.dsl`. -/
def boolOr (self other : EsQ) : EsQ :=
  if pureShould self then mergeShould self other
  else if pureShould other then mergeShould other self
  else .boolq [] [] [self, other] [] Option.none

/-- The `|` operator on queries, modelled from `elasticsearch.dsl`
(`Query.__or__` defers to `Bool.__ror__` when the right operand is a bool
query; two non-bool operands give `Bool(should=[a, b])`). -/
def qOr (a b : EsQ) : EsQ :=
  match a with
  | .boolq _ _ _ _ _ => boolOr a b
  | _ =>
    match b with
    | .boolq _ _ _ _ _ => boolOr b a
    | _ => .boolq [] [] [a, b] [] Option.none

/-- `Bool.__and__(self, other)` from `elasticsearch.dsl`: clause lists are
concatenated; each operand's should clauses fold into `must` when its
effective `minimum_should_match` is 0 or equals the number of should
clauses, and otherwise stay in `should` with `minimum_should_match = 1`. -/
def boolAnd (self other : EsQ) : EsQ :=
  match self with
  | .boolq am amn ash af amsm =>
      match other with
      | .boolq bm bmn bsh bf bmsm =>
          let msma := minShouldMatchOf am ash af amsm
          let msmb := minShouldMatchOf bm bsh bf bmsm
          let foldA := msmEqInt msma 0 || msmEqInt msma ash.length
          let foldB := msmEqInt msmb 0 || msmEqInt msmb bsh.length
          .boolq (am ++ bm ++ (if foldA then ash else []) ++ (if foldB then bsh else []))
            (amn ++ bmn)
            ((if foldA then [] else ash) ++ (if foldB then [] else bsh))
            (af ++ bf)
            (if foldA && foldB then Option.none else some (.int 1))
      | q => .boolq (am ++ [q]) amn ash af amsm
  | q => .boolq [q, other] [] [] [] Option.none

/-- The `&` operator on queries, modelled from `elasticsearch.dsl`
(`Query.__and__` defers to `Bool.__rand__` when the right operand is a bool
query; two non-bool operands give `Bool(must=[a, b])`). -/
def qAnd (a b : EsQ) : EsQ :=
  match a with
  | .boolq _ _ _ _ _ => boolAnd a b
  | _ =>
    match b with
    | .boolq _ _ _ _ _ => boolAnd b a
    | _ => .boolq [a, b] [] [] [] Option.none

/-- A raw condition dict as supplied by callers (`child_dict` / `cond`).
Only the keys the code reads are modelled; `Option` encodes key absence.
`children` is read with default `[]`, so absence is modelled as `[]`. -/
inductive CDict where
  | mk : (ctype : Option String) → (ckey : Option String) → (cmethod : Option String) →
         (cvalue : Option PyVal) → (ccondition : Option String) →
         (cchildren : List CDict) → (cpath : Option String) →
         (cscoreMode : Option String) → (cmsm : Option MsmVal) →
         (cinnerHits : Option Json) → CDict

def CDict.ctype : CDict → Option String
  | .mk t _ _ _ _ _ _ _ _ _ => t

def CDict.ckey : CDict → Option String
  | .mk _ k _ _ _ _ _ _ _ _ => k

def CDict.cmethod : CDict → Option String
  | .mk _ _ m _ _ _ _ _ _ _ => m

def CDict.cvalue : CDict → Option PyVal
  | .mk _ _ _ v _ _ _ _ _ _ => v

def CDict.ccondition : CDict → Option String
  | .mk _ _ _ _ c _ _ _ _ _ => c

def CDict.cchildren : CDict → List CDict
  | .mk _ _ _ _ _ ch _ _ _ _ => ch

def CDict.cpath : CDict → Option String
  | .mk _ _ _ _ _ _ p _ _ _ => p

def CDict.cscoreMode : CDict → Option String
  | .mk _ _ _ _ _ _ _ sm _ _ => sm

def CDict.cmsm : CDict → Option MsmVal
  | .mk _ _ _ _ _ _ _ _ m _ => m

def CDict.cinnerHits : CDict → Option Json
  | .mk _ _ _ _ _ _ _ _ _ ih => ih

/-- `ConditionItem` (conditions.py 36-64). -/
structure ConditionItem where
  key : String
  method : String
  value : PyVal
  condition : String := "and"

/-- `ConditionGroup` (conditions.py 67-120). -/
structure ConditionGroup where
  condition : String := "and"
  children : List CDict := []
  type : String := "group"
  minimum_should_match : Option MsmVal := Option.none

/-- `NestedCondition` (conditions.py 123-182). -/
structure NestedCondition where
  path : String
  condition : String := "and"
  children : List CDict := []
  type : String := "nested"
  score_mode : Option String := Option.none
  minimum_should_match : Option MsmVal := Option.none
  inner_hits : Option Json := Option.none

/-- Python `str.strip()`: drop leading and trailing whitespace (ASCII
whitespace; Python also strips a few rarer code points). -/
def pyStrip (s : String) : String :=
  ⟨((s.data.dropWhile Char.isWhitespace).reverse.dropWhile Char.isWhitespace).reverse⟩

/-- The string format accepted by `_validate_minimum_should_match`:
the regex `^\d+%$|^[\d<>]+$` (a percentage, or digits with `<`/`>`). -/
def msmFormatOk (s : String) : Bool :=
  (decide (s.data.length > 0) && s.data.getLast? == some '%' &&
    decide (s.data.dropLast.length > 0) && s.data.dropLast.all Char.isDigit) ||
  (decide (s.data.length > 0) && s.data.all fun c => c.isDigit || c == '<' || c == '>')

/-- `_validate_minimum_should_match` (conditions.py 16-33). -/
def validateMSM : Option MsmVal → Except PyErr Unit
  | Option.none => .ok ()
  | some (.int n) =>
      if n < 0 then .error (.valueError "minimum_should_match must be >= 0")
      else .ok ()
  | some (.str s) =>
      if msmFormatOk s then .ok ()
      else .error (.valueError ("Invalid minimum_should_match format: " ++ s))

/-- `ConditionItem.__post_init__`: an unknown method only logs a warning,
but an invalid combinator raises `ValueError`. -/
def mkConditionItem (key method : String) (value : PyVal) (condition : String) :
    Except PyErr ConditionItem :=
  if condition = "and" ∨ condition = "or" then
    .ok { key := key, method := method, value := value, condition := condition }
  else .error (.valueError ("Invalid condition: " ++ condition))

/-- The validations of `ConditionGroup.__post_init__`. -/
def validateGroupFields (condition : String) (msm : Option MsmVal) :
    Except PyErr Unit :=
  if condition = "and" ∨ condition = "or" then validateMSM msm
  else .error (.valueError ("Invalid condition: " ++ condition))

/-- `ConditionGroup.__post_init__` as a validating constructor. -/
def mkConditionGroup (condition : String) (children : List CDict)
    (msm : Option MsmVal) : Except PyErr ConditionGroup :=
  match validateGroupFields condition msm with
  | .error e => .error e
  | .ok _ => .ok { condition := condition, children := children,
                   minimum_should_match := msm }

/-- Valid `score_mode` values (`("avg", "max", "min", "sum", "none", None)`). -/
def validScoreMode : Option String → Bool
  | Option.none => true
  | some m => m == "avg" || m == "max" || m == "min" || m == "sum" || m == "none"

/-- The validations of `NestedCondition.__post_init__`
(conditions.py 164-182): blank path, invalid combinator, invalid
score_mode and malformed minimum_should_match are `ValueError`s. -/
def validateNestedFields (path condition : String) (score_mode : Option String)
    (msm : Option MsmVal) : Except PyErr Unit :=
  if path = "" ∨ pyStrip path = "" then
    .error (.valueError "NestedCondition.path cannot be empty")
  else if condition = "and" ∨ condition = "or" then
    if validScoreMode score_mode then validateMSM msm
    else .error (.valueError "Invalid score_mode")
  else .error (.valueError ("Invalid condition: " ++ condition))

/-- `NestedCondition.__post_init__` as a validating constructor. -/
def mkNestedCondition (path condition : String) (children : List CDict)
    (score_mode : Option String) (msm : Option MsmVal) (inner_hits : Option Json) :
    Except PyErr NestedCondition :=
  match validateNestedFields path condition score_mode msm with
  | .error e => .error e
  | .ok _ => .ok { path := path, condition := condition, children := children,
                   score_mode := score_mode, minimum_should_match := msm,
                   inner_hits := inner_hits }

/-- Normalize a value to a list (`if not isinstance(value, list): value = [value]`). -/
def asList (v : PyVal) : PyVal :=
  if v.isList then v else .list [v]

/-- A wildcard leaf query `Q("wildcard", **{key: f"*{v}*"})`. -/
def wildcardQ (key : String) (v : String) : EsQ :=
  .leaf "wildcard" (.obj [(key, .str ("*" ++ v ++ "*"))])

/-- `DefaultConditionParser.parse` (conditions.py 314-385): builds the leaf
query for one condition item, dispatching on `method`. -/
def parse (c : ConditionItem) : Option EsQ :=
  let key := c.key
  let value := c.value
  if c.method = "eq" then
    some (.leaf "terms" (.obj [(key, (asList value).toJson)]))
  else if c.method = "neq" then
    some (qNot (.leaf "terms" (.obj [(key, (asList value).toJson)])))
  else if c.method = "include" then
    match value with
    | .list vs =>
        match vs.map (fun v => wildcardQ key v.pyStr) with
        | [q] => some q
        | qs => some (.boolq [] [] qs [] Option.none)
    | _ => some (wildcardQ key value.pyStr)
  else if c.method = "exclude" then
    match value with
    | .list vs =>
        match vs.map (fun v => wildcardQ key v.pyStr) with
        | [q] => some (qNot q)
        | qs => some (qNot (.boolq [] [] qs [] Option.none))
    | _ => some (qNot (wildcardQ key value.pyStr))
  else if c.method = "gte" ∨ c.method = "gt" ∨ c.method = "lte" ∨ c.method = "lt" then
    let v := match value with
             | .list (x :: _) => x
             | x => x
    some (.leaf "range" (.obj [(key, .obj [(c.method, v.toJson)])]))
  else if c.method = "exists" then
    some (.leaf "exists" (.obj [("field", .str key)]))
  else if c.method = "nexists" then
    some (qNot (.leaf "exists" (.obj [("field", .str key)])))
  else
    some (.leaf "terms" (.obj [(key, (asList value).toJson)]))

mutual
/-- Body of the `try` block of `DefaultConditionParser._parse_children`
(conditions.py 244-312) for one child dict; a raised
`ValueError`/`KeyError` is modelled as `Except.error`, an unknown type tag
as `.ok Option.none` (the `continue` with no query appended). -/
def parseChild : CDict → Except PyErr (Option EsQ)
  | .mk t k m v cond children path sm msm ih =>
    let ctp := t.getD "item"
    if ctp = "item" then
      match k, v with
      | some key, some value =>
          match mkConditionItem key (m.getD "eq") value (cond.getD "and") with
          | .error e => .error e
          | .ok item => .ok (parse item)
      | _, _ =>
          .error (.valueError "Missing required field key or value in item condition")
    else if ctp = "group" then
      match validateGroupFields (cond.getD "and") msm with
      | .error e => .error e
      | .ok _ => .ok (parseGroupCore (cond.getD "and") children msm)
    else if ctp = "nested" then
      match path with
      | Option.none =>
          .error (.valueError "Missing required field path in nested condition")
      | some p =>
          match validateNestedFields p (cond.getD "and") sm msm with
          | .error e => .error e
          | .ok _ => .ok (parseNestedCore p (cond.getD "and") children sm msm ih)
    else
      .ok Option.none

/-- `DefaultConditionParser._parse_children`: parse each child, skipping a
child whose construction raised and a child whose parse returned no query. -/
def parseChildren : List CDict → List EsQ
  | [] => []
  | c :: rest =>
      match parseChild c with
      | .ok (some q) => q :: parseChildren rest
      | _ => parseChildren rest

/-- `DefaultConditionParser.parse_group` (conditions.py 387-414) on the
fields of an already-validated group. -/
def parseGroupCore (condition : String) (children : List CDict)
    (msm : Option MsmVal) : Option EsQ :=
  if children.isEmpty then Option.none
  else
    match parseChildren children with
    | [] => Option.none
    | cq =>
        if condition = "or" then some (.boolq [] [] cq [] msm)
        else some (.boolq cq [] [] [] Option.none)

/-- `DefaultConditionParser.parse_nested` (conditions.py 416-461) on the
fields of an already-validated nested condition. -/
def parseNestedCore (path condition : String) (children : List CDict)
    (sm : Option String) (msm : Option MsmVal) (ih : Option Json) : Option EsQ :=
  if children.isEmpty then Option.none
  else
    match parseChildren children with
    | [] => Option.none
    | cq =>
        let inner := if condition = "or" then EsQ.boolq [] [] cq [] msm
                     else EsQ.boolq cq [] [] [] Option.none
        some (.nested path inner sm ih)
end

/-- `DefaultConditionParser.parse_group` on a constructed group. -/
def parse_group (g : ConditionGroup) : Option EsQ :=
  parseGroupCore g.condition g.children g.minimum_should_match

/-- `DefaultConditionParser.parse_nested` on a constructed nested condition. -/
def parse_nested (n : NestedCondition) : Option EsQ :=
  parseNestedCore n.path n.condition n.children n.score_mode n.minimum_should_match
    n.inner_hits

/-- `QueryField` (fields.py 6-20). -/
structure QueryField where
  field : String
  es_field : String
  es_field_for_agg : Option String := Option.none
  display : String := ""
  is_char : Bool := false

/-- Python truthiness of `str | None` (`None` and `""` are falsy). -/
def truthyStrOpt : Option String → Bool
  | Option.none => false
  | some s => s != ""

/-- `QueryField.get_es_field` (fields.py 16-20):
`if for_agg and self.es_field_for_agg: return self.es_field_for_agg`. -/
def QueryField.get_es_field (f : QueryField) (for_agg : Bool) : String :=
  if for_agg && truthyStrOpt f.es_field_for_agg then
    f.es_field_for_agg.getD f.es_field
  else f.es_field

/-- `FieldMapper` (fields.py 23-48); `_fields` is the dict
`{f.field: f for f in fields}`, where a later entry overwrites an earlier
one with the same application name. -/
structure FieldMapper where
  fields : List QueryField := []

/-- Lookup in `_fields`: the last registered entry for a name wins. -/
def FieldMapper.find (m : FieldMapper) (name : String) : Option QueryField :=
  m.fields.reverse.find? (fun f => f.field == name)

/-- `FieldMapper.get_es_field` (fields.py 35-48): unmapped names pass
through unchanged. -/
def FieldMapper.get_es_field (m : FieldMapper) (field : String)
    (for_agg : Bool) : String :=
  match m.find field with
  | some f => f.get_es_field for_agg
  | Option.none => field

/-- `FieldMapper.transform_ordering_fields` (fields.py 105-121). -/
def FieldMapper.transform_ordering_fields (m : FieldMapper)
    (ordering : List String) : List String :=
  ordering.map fun field =>
    if field.startsWith "-" then
      "-" ++ m.get_es_field (field.drop 1) true
    else m.get_es_field field true

/-- Set one key of a Python dict (overwrite in place when present,
append otherwise). -/
def pySet : List (String × Json) → String → Json → List (String × Json)
  | [], k, v => [(k, v)]
  | (k0, v0) :: rest, k, v =>
      if k0 = k then (k0, v) :: rest else (k0, v0) :: pySet rest k v

/-- `dict.update`: set every key of the second dict in order. -/
def pyUpdate (d : List (String × Json)) : List (String × Json) →
    List (String × Json)
  | [] => d
  | (k, v) :: rest => pyUpdate (pySet d k v) rest

/-- Dict lookup by key (first match). -/
def pyLookup : List (String × Json) → String → Option Json
  | [], _ => Option.none
  | (k0, v0) :: rest, k => if k0 = k then some v0 else pyLookup rest k

/-- An aggregation configuration as appended by `add_aggregation`
(dsl.py 313-321): name, type, already-resolved field, keyword parameters
and normalized sub-aggregation configurations. -/
inductive AggNode where
  | mk : (name : String) → (atype : String) → (field : Option String) →
         (kwargs : List (String × Json)) → (subs : List AggNode) → AggNode

def AggNode.fieldOf : AggNode → Option String
  | .mk _ _ f _ _ => f

mutual
/-- `DslQueryBuilder._apply_single_aggregation` (dsl.py 623-676): registers
one aggregation entry `(name, body)`; `top_hits` takes no field parameter;
sub-aggregation fields are resolved through the mapper with
`for_agg=true` before recursing. `resolvedField` is the field value handed
to `bucket` for this node. -/
def buildAggWith (mapper : FieldMapper) (resolvedField : Option String) :
    AggNode → String × Json
  | .mk name atype _ kwargs subs =>
      let body := if atype = "top_hits" then kwargs
                  else match resolvedField with
                       | some f => ("field", Json.str f) :: kwargs
                       | Option.none => kwargs
      let subEntries := buildAggSubs mapper subs
      (name, Json.obj ([(atype, Json.obj body)] ++
        (if subEntries.isEmpty then [] else [("aggs", Json.obj subEntries)])))

def buildAggSubs (mapper : FieldMapper) : List AggNode → List (String × Json)
  | [] => []
  | AggNode.mk n t f kw ss :: rest =>
      buildAggWith mapper (f.map (fun x => mapper.get_es_field x true))
        (AggNode.mk n t f kw ss) :: buildAggSubs mapper rest
end

/-- The serializable search document assembled by `build()`: the filter
context, the scored-query context, sort, paging and the aggregation dict. -/
structure SearchDoc where
  filters : List EsQ := []
  queries : List EsQ := []
  sort : List String := []
  from_ : Option Int := Option.none
  size : Option Int := Option.none
  aggs : List (String × Json) := []

/-- `search.filter(q)`: add a fragment to the filter context. -/
def addFilter (s : SearchDoc) (q : EsQ) : SearchDoc :=
  { s with filters := s.filters ++ [q] }

/-- `DslQueryBuilder` state (dsl.py 105-134). -/
structure DslQueryBuilder where
  field_mapper : FieldMapper := {}
  conditions : List CDict := []
  query_string : String := ""
  ordering : List String := []
  page : Int := 1
  page_size : Int := 10
  aggregations : List AggNode := []
  raw_aggregations : List (List (String × Json)) := []
  extra_filters : List EsQ := []
  query_string_transformer : Option (String → String) := Option.none

/-- `DslQueryBuilder.pagination` (dsl.py 175-192): page clamps to at least
1, page size clamps to at least 0 (0 = aggregations only). -/
def DslQueryBuilder.pagination (b : DslQueryBuilder) (page page_size : Int) :
    DslQueryBuilder :=
  { b with page := max 1 page, page_size := max 0 page_size }

/-- `DslQueryBuilder.add_aggregation_raw` (dsl.py 448-485). -/
def DslQueryBuilder.add_aggregation_raw (b : DslQueryBuilder)
    (agg_dict : List (String × Json)) : DslQueryBuilder :=
  { b with raw_aggregations := b.raw_aggregations ++ [agg_dict] }

/-- Body of the `try` in `DslQueryBuilder._apply_conditions`
(dsl.py 527-578) for one condition dict: `.ok Option.none` models a `continue`
(skipped condition or a parse that yielded no query), `.error` a raised
`KeyError`/`ValueError` that the surrounding `except` catches. -/
def applyCond : CDict → Except PyErr (Option EsQ)
  | .mk t k m v cond children path sm msm ih =>
    let ctp := t.getD "item"
    if ctp = "item" then
      match k, v with
      | some key, some value =>
          (mkConditionItem key (m.getD "eq") value (cond.getD "and")).map parse
      | _, _ => .ok Option.none
    else if ctp = "group" then
      (mkConditionGroup (cond.getD "and") children msm).map parse_group
    else if ctp = "nested" then
      match path with
      | Option.none => .ok Option.none
      | some p =>
          (mkNestedCondition p (cond.getD "and") children sm msm ih).map parse_nested
    else .ok Option.none

/-- One iteration of the combining loop of `_apply_conditions`
(dsl.py 580-589): a node whose raw dict carries `condition == "or"` is
OR-combined with the accumulator, every other node is AND-combined. -/
def applyCondStep (combined : Option EsQ) (c : CDict) : Option EsQ :=
  match applyCond c with
  | .error _ => combined
  | .ok Option.none => combined
  | .ok (some q) =>
      match combined with
      | Option.none => some q
      | some acc =>
          some (if c.ccondition = some "or" then qOr acc q else qAnd acc q)

/-- The final `combined_q` of `_apply_conditions` for a condition list. -/
def applyConditionsQ (conds : List CDict) : Option EsQ :=
  conds.foldl applyCondStep Option.none

/-- `DslQueryBuilder._apply_conditions` (dsl.py 520-594) at the document
level: an empty list returns the search unchanged, a null `combined_q`
attaches nothing, otherwise the combined query joins the filter context. -/
def applyConditionsSearch (conds : List CDict) (s : SearchDoc) : SearchDoc :=
  if conds.isEmpty then s
  else
    match applyConditionsQ conds with
    | Option.none => s
    | some q => addFilter s q

/-- `DslQueryBuilder._apply_query_string` (dsl.py 596-607). -/
def applyQueryString (qs : String) (tf : Option (String → String))
    (s : SearchDoc) : SearchDoc :=
  let q := pyStrip qs
  if q = "" then s
  else
    let q := match tf with
             | some f => f q
             | Option.none => q
    { s with queries := s.queries ++
        [EsQ.leaf "query_string" (Json.obj [("query", Json.str q)])] }

/-- `DslQueryBuilder._apply_raw_aggregation` (dsl.py 678-693): merge the
fragment into the `aggs` dict by key; every other field of the document
round-trips unchanged through `to_dict`/`update_from_dict`. -/
def applyRawAgg (s : SearchDoc) (raw : List (String × Json)) : SearchDoc :=
  { s with aggs := pyUpdate s.aggs raw }

/-- `DslQueryBuilder._apply_aggregations` (dsl.py 609-621): register every
named aggregation (`search.aggs.bucket` overwrites per name), then merge
the raw fragments. -/
def applyAggregations (b : DslQueryBuilder) (s : SearchDoc) : SearchDoc :=
  let s1 := b.aggregations.foldl (fun acc a =>
      let e := buildAggWith b.field_mapper (AggNode.fieldOf a) a
      { acc with aggs := pySet acc.aggs e.1 e.2 }) s
  b.raw_aggregations.foldl applyRawAgg s1

/-- `DslQueryBuilder.build` (dsl.py 487-518): conditions, query string,
extra filters, sort, the `from/size` slice `(page-1)*size`, then the
aggregations. -/
def DslQueryBuilder.build (b : DslQueryBuilder) : SearchDoc :=
  let s : SearchDoc := {}
  let s := applyConditionsSearch b.conditions s
  let s := applyQueryString b.query_string b.query_string_transformer s
  let s := b.extra_filters.foldl addFilter s
  let s := if b.ordering.isEmpty then s else { s with sort := b.ordering }
  let start := (b.page - 1) * b.page_size
  let s := { s with from_ := some start, size := some b.page_size }
  applyAggregations b s

/-! Helper lemmas. -/

theorem foldl_preserve {α β γ : Type} (proj : β → γ) (f : β → α → β)
    (h : ∀ s a, proj (f s a) = proj s) :
    ∀ (l : List α) (s : β), proj (l.foldl f s) = proj s := by
  intro l
  induction l with
  | nil => intro s; rfl
  | cons a l ih => intro s; rw [List.foldl_cons, ih, h]

theorem pyLookup_pySet_self (d : List (String × Json)) (k : String) (v : Json) :
    pyLookup (pySet d k v) k = some v := by
  induction d with
  | nil => simp [pySet, pyLookup]
  | cons kv rest ih =>
      obtain ⟨k0, v0⟩ := kv
      by_cases h : k0 = k
      · simp [pySet, h, pyLookup]
      · simpa [pySet, h, pyLookup] using ih

theorem pyLookup_pySet_ne (d : List (String × Json)) (k k' : String) (v : Json)
    (h : k' ≠ k) : pyLookup (pySet d k v) k' = pyLookup d k' := by
  have hk : k ≠ k' := Ne.symm h
  induction d with
  | nil => simp [pySet, pyLookup, hk]
  | cons kv rest ih =>
      obtain ⟨k0, v0⟩ := kv
      by_cases h0 : k0 = k
      · subst h0
        simp [pySet, pyLookup, hk]
      · by_cases h1 : k0 = k'
        · simp [pySet, h0, pyLookup, h1, h]
        · simpa [pySet, h0, pyLookup, h1] using ih

theorem applyAggregations_filters (b : DslQueryBuilder) (s : SearchDoc) :
    (applyAggregations b s).filters = s.filters := by
  unfold applyAggregations
  rw [foldl_preserve SearchDoc.filters applyRawAgg (fun s r => rfl)]
  apply foldl_preserve
  intro s a
  rfl

theorem applyAggregations_queries (b : DslQueryBuilder) (s : SearchDoc) :
    (applyAggregations b s).queries = s.queries := by
  unfold applyAggregations
  rw [foldl_preserve SearchDoc.queries applyRawAgg (fun s r => rfl)]
  apply foldl_preserve
  intro s a
  rfl

theorem applyAggregations_sort (b : DslQueryBuilder) (s : SearchDoc) :
    (applyAggregations b s).sort = s.sort := by
  unfold applyAggregations
  rw [foldl_preserve SearchDoc.sort applyRawAgg (fun s r => rfl)]
  apply foldl_preserve
  intro s a
  rfl

theorem applyAggregations_from_ (b : DslQueryBuilder) (s : SearchDoc) :
    (applyAggregations b s).from_ = s.from_ := by
  unfold applyAggregations
  rw [foldl_preserve SearchDoc.from_ applyRawAgg (fun s r => rfl)]
  apply foldl_preserve
  intro s a
  rfl

theorem applyAggregations_size (b : DslQueryBuilder) (s : SearchDoc) :
    (applyAggregations b s).size = s.size := by
  unfold applyAggregations
  rw [foldl_preserve SearchDoc.size applyRawAgg (fun s r => rfl)]
  apply foldl_preserve
  intro s a
  rfl

theorem build_from_ (b : DslQueryBuilder) :
    (b.build).from_ = some ((b.page - 1) * b.page_size) := by
  simp only [DslQueryBuilder.build, applyAggregations_from_]

theorem build_size (b : DslQueryBuilder) :
    (b.build).size = some b.page_size := by
  simp only [DslQueryBuilder.build, applyAggregations_size]

/-! The claims. -/

/-- The child dict of the C1 nested condition:
`{"type": "item", "key": "score", "method": "gt", "value": [3]}`. -/
def c1Child : CDict :=
  .mk (some "item") (some "score") (some "gt") (some (.list [.int 3]))
    Option.none [] Option.none Option.none Option.none Option.none

/-- The C1 nested condition `Nested{path="comments", AND, [Item(score, gt, [3])]}`. -/
def c1Nested : NestedCondition :=
  { path := "comments", condition := "and", children := [c1Child] }

/-- C1: compiling `Nested{path="comments", AND, [Item(score, gt, [3])]}` via
`parse_nested` yields exactly
`{"nested": {"path": "comments", "query": {"bool": {"must": [{"range":
{"score": {"gt": 3}}}]}}}}`, with no `score_mode` or `inner_hits` keys when
neither is set. -/
theorem c1_parse_nested_exact :
    mkNestedCondition "comments" "and" [c1Child] Option.none Option.none Option.none =
      .ok c1Nested ∧
    (parse_nested c1Nested).map EsQ.toJson =
      some (Json.obj [("nested", Json.obj [("path", Json.str "comments"),
        ("query", Json.obj [("bool", Json.obj [("must",
          Json.arr [Json.obj [("range", Json.obj [("score",
            Json.obj [("gt", Json.int 3)])])]])])])])]) := by
  constructor
  · rfl
  · simp [parse_nested, parseNestedCore, parseChildren, parseChild, mkConditionItem,
      parse, c1Nested, c1Child, EsQ.toJson, EsQ.toJsonList, boolBody,
      PyVal.toJson, PyVal.toJsonList]

/-- C6: constructing a `NestedCondition` with an empty or whitespace-only
path raises at construction time; with a non-blank path and valid
condition, score_mode and minimum_should_match values it succeeds. -/
theorem c6_nested_path_validation (path condition : String) (children : List CDict)
    (sm : Option String) (msm : Option MsmVal) (ih : Option Json) :
    (pyStrip path = "" →
      mkNestedCondition path condition children sm msm ih =
        .error (.valueError "NestedCondition.path cannot be empty")) ∧
    (pyStrip path ≠ "" → (condition = "and" ∨ condition = "or") →
      validScoreMode sm = true → validateMSM msm = .ok () →
      mkNestedCondition path condition children sm msm ih =
        .ok { path := path, condition := condition, children := children,
              score_mode := sm, minimum_should_match := msm, inner_hits := ih }) := by
  constructor
  · intro h
    simp [mkNestedCondition, validateNestedFields, h]
  · intro h hcond hsm hmsm
    have hp : path ≠ "" := by
      intro he
      exact h (by simp [he, pyStrip])
    simp [mkNestedCondition, validateNestedFields, h, hp, hcond, hsm, hmsm]

/-- C6 witness: a whitespace-only path errors, a non-blank path with valid
parameters constructs. -/
theorem c6_witness :
    (pyStrip "   " = "" ∧
      mkNestedCondition "   " "and" [] Option.none Option.none Option.none =
        .error (.valueError "NestedCondition.path cannot be empty")) ∧
    (pyStrip "comments" ≠ "" ∧
      mkNestedCondition "comments" "or" [] (some "avg") (some (.int 1)) Option.none =
        .ok { path := "comments", condition := "or", children := [],
              score_mode := some "avg", minimum_should_match := some (.int 1),
              inner_hits := Option.none }) :=
  ⟨⟨by decide,
    (c6_nested_path_validation "   " "and" [] Option.none Option.none Option.none).1
      (by decide)⟩,
   ⟨by decide,
    (c6_nested_path_validation "comments" "or" [] (some "avg") (some (.int 1))
      Option.none).2 (by decide) (Or.inr rfl) rfl rfl⟩⟩

/-- C8: for every page and page size, `pagination` followed by `build`
attaches `from = (max 1 page - 1) * max 0 page_size` and
`size = max 0 page_size`; in particular `pagination 0 0` yields `from = 0`
and `pagination 2 20` yields `from = 20`. -/
theorem c8_pagination_clamps (b : DslQueryBuilder) (page page_size : Int) :
    ((b.pagination page page_size).build).from_ =
      some ((max 1 page - 1) * max 0 page_size) ∧
    ((b.pagination page page_size).build).size = some (max 0 page_size) ∧
    ((b.pagination 0 0).build).from_ = some 0 ∧
    ((b.pagination 0 0).build).size = some 0 ∧
    ((b.pagination 2 20).build).from_ = some 20 := by
  refine ⟨?_, ?_, ?_, ?_, ?_⟩ <;>
    simp [DslQueryBuilder.pagination, build_from_, build_size]

/-- C9: field resolution is total; an unmapped name passes through
unchanged; `for_agg = true` prefers a registered (non-empty)
aggregation-specific wire name and otherwise falls back to the normal wire
name; `for_agg = false` always yields the normal wire name of a mapped
field. -/
theorem c9_field_resolution (m : FieldMapper) (name : String) (for_agg : Bool)
    (qf : QueryField) (a : String) :
    (m.find name = Option.none → m.get_es_field name for_agg = name) ∧
    (m.find name = some qf → m.get_es_field name false = qf.es_field) ∧
    (m.find name = some qf → qf.es_field_for_agg = some a → a ≠ "" →
      m.get_es_field name true = a) ∧
    (m.find name = some qf →
      (qf.es_field_for_agg = Option.none ∨ qf.es_field_for_agg = some "") →
      m.get_es_field name true = qf.es_field) := by
  refine ⟨?_, ?_, ?_, ?_⟩
  · intro h
    simp [FieldMapper.get_es_field, h]
  · intro h
    simp [FieldMapper.get_es_field, h, QueryField.get_es_field]
  · intro h ha hne
    simp [FieldMapper.get_es_field, h, QueryField.get_es_field, truthyStrOpt, ha, hne]
  · intro h ha
    rcases ha with ha | ha <;>
      simp [FieldMapper.get_es_field, h, QueryField.get_es_field, truthyStrOpt, ha]

/-- A field mapper used by the C9 witness: `status` has both wire names,
`title` only a normal one. -/
def c9Mapper : FieldMapper :=
  { fields := [{ field := "status", es_field := "status_wire",
                 es_field_for_agg := some "status_agg" },
               { field := "title", es_field := "title_wire" }] }

/-- C9 witness: concrete lookups through the mapper. -/
theorem c9_witness :
    c9Mapper.get_es_field "unknown" true = "unknown" ∧
    c9Mapper.get_es_field "status" false = "status_wire" ∧
    c9Mapper.get_es_field "status" true = "status_agg" ∧
    c9Mapper.get_es_field "title" true = "title_wire" :=
  ⟨(c9_field_resolution c9Mapper "unknown" true
      { field := "", es_field := "" } "").1 rfl,
   (c9_field_resolution c9Mapper "status" false
      { field := "status", es_field := "status_wire",
        es_field_for_agg := some "status_agg" } "").2.1 rfl,
   (c9_field_resolution c9Mapper "status" true
      { field := "status", es_field := "status_wire",
        es_field_for_agg := some "status_agg" } "status_agg").2.2.1 rfl
      rfl (by decide),
   (c9_field_resolution c9Mapper "title" true
      { field := "title", es_field := "title_wire" } "").2.2.2 rfl
      (Or.inl rfl)⟩

theorem pyLookup_append (d1 d2 : List (String × Json)) (k : String) :
    pyLookup (d1 ++ d2) k =
      match pyLookup d1 k with
      | some v => some v
      | Option.none => pyLookup d2 k := by
  induction d1 with
  | nil => simp [pyLookup]
  | cons kv rest ih =>
      obtain ⟨k0, v0⟩ := kv
      by_cases h : k0 = k <;> simp [pyLookup, h, ih]

/-- C2: when compiling a top-level condition list, each node's own raw
`condition` field decides how it merges with the accumulated siblings
(`|` for `"or"`, `&` otherwise), and on non-bool operands those operators
are exactly the should / must combination used inside a group. -/
theorem c2_sibling_combinators (conds : List CDict) (c : CDict) (acc q : EsQ)
    (h1 : applyConditionsQ conds = some acc)
    (h2 : applyCond c = .ok (some q)) :
    applyConditionsQ (conds ++ [c]) =
      some (if c.ccondition = some "or" then qOr acc q else qAnd acc q) ∧
    (∀ qa qb : EsQ, qa.isBoolq = false → qb.isBoolq = false →
      qOr qa qb = .boolq [] [] [qa, qb] [] Option.none ∧
      qAnd qa qb = .boolq [qa, qb] [] [] [] Option.none) := by
  constructor
  · unfold applyConditionsQ at h1 ⊢
    rw [List.foldl_append, h1, List.foldl_cons, List.foldl_nil]
    simp [applyCondStep, h2]
  · intro qa qb ha hb
    cases qa <;> cases qb <;> simp_all [EsQ.isBoolq, qOr, qAnd]

/-- A plain item condition dict `{"key": "status", "value": "error"}`. -/
def dStatus : CDict :=
  .mk Option.none (some "status") Option.none (some (.str "error")) Option.none []
    Option.none Option.none Option.none Option.none

/-- The compiled query of `dStatus`. -/
def qStatus : EsQ := .leaf "terms" (.obj [("status", .arr [.str "error"])])

/-- An item dict carrying the sibling combinator OR:
`{"key": "level", "method": "gte", "value": 3, "condition": "or"}`. -/
def dLevelOr : CDict :=
  .mk Option.none (some "level") (some "gte") (some (.int 3)) (some "or") []
    Option.none Option.none Option.none Option.none

/-- The compiled query of `dLevelOr`. -/
def qLevel : EsQ := .leaf "range" (.obj [("level", .obj [("gte", .int 3)])])

/-- An item dict `{"key": "type", "method": "eq", "value": ["alert"]}`. -/
def dType : CDict :=
  .mk Option.none (some "type") (some "eq") (some (.list [.str "alert"])) Option.none []
    Option.none Option.none Option.none Option.none

/-- The compiled query of `dType`. -/
def qType : EsQ := .leaf "terms" (.obj [("type", .arr [.str "alert"])])

/-- C2 witness: an AND-tagged and an OR-tagged sibling at the top level. -/
theorem c2_witness :
    applyConditionsQ [dStatus] = some qStatus ∧
    applyCond dLevelOr = .ok (some qLevel) ∧
    applyConditionsQ [dStatus, dLevelOr] =
      some (if dLevelOr.ccondition = some "or" then qOr qStatus qLevel
            else qAnd qStatus qLevel) := by
  have h1 : applyConditionsQ [dStatus] = some qStatus := by
    simp [applyConditionsQ, applyCondStep, applyCond, dStatus, mkConditionItem,
      Except.map, parse, asList, PyVal.isList, PyVal.toJson, PyVal.toJsonList, qStatus]
  have h2 : applyCond dLevelOr = .ok (some qLevel) := by
    simp [applyCond, dLevelOr, mkConditionItem, Except.map, parse, PyVal.toJson, qLevel]
  exact ⟨h1, h2, (c2_sibling_combinators [dStatus] dLevelOr qStatus qLevel h1 h2).1⟩

/-- C3: an OR group with exactly two parseable children compiles to a bool
query whose should list holds exactly the two compiled children and whose
`minimum_should_match` equals the group's own; the serialized bool body has
no `minimum_should_match` key when it is unset, and carries 2 when it is
set to 2. -/
theorem c3_or_group_minimum_should_match (a b : CDict) (qa qb : EsQ)
    (msm : Option MsmVal)
    (ha : parseChild a = .ok (some qa)) (hb : parseChild b = .ok (some qb)) :
    parseGroupCore "or" [a, b] msm = some (.boolq [] [] [qa, qb] [] msm) ∧
    (∀ m mn sh f : List Json,
      pyLookup (boolBody m mn sh f Option.none) "minimum_should_match" =
        Option.none) ∧
    (∀ m mn sh f : List Json,
      pyLookup (boolBody m mn sh f (some (.int 2))) "minimum_should_match" =
        some (Json.int 2)) := by
  refine ⟨?_, ?_, ?_⟩
  · have hc : parseChildren [a, b] = [qa, qb] := by
      simp [parseChildren, ha, hb]
    simp [parseGroupCore, hc]
  · intro m mn sh f
    unfold boolBody
    split_ifs <;> simp [pyLookup_append, pyLookup]
  · intro m mn sh f
    unfold boolBody
    split_ifs <;> simp [pyLookup_append, pyLookup]

/-- C3 witness: an OR group over two items, with `minimum_should_match`
set to 2, and the key-absence fact for the unset case. -/
theorem c3_witness :
    parseChild dStatus = .ok (some qStatus) ∧
    parseChild dType = .ok (some qType) ∧
    parseGroupCore "or" [dStatus, dType] (some (.int 2)) =
      some (.boolq [] [] [qStatus, qType] [] (some (.int 2))) ∧
    pyLookup (boolBody [qStatus.toJson] [] [qType.toJson] [] Option.none)
      "minimum_should_match" = Option.none := by
  have h1 : parseChild dStatus = .ok (some qStatus) := by
    simp [parseChild, dStatus, mkConditionItem, parse, asList, PyVal.isList,
      PyVal.toJson, PyVal.toJsonList, qStatus]
  have h2 : parseChild dType = .ok (some qType) := by
    simp [parseChild, dType, mkConditionItem, parse, asList, PyVal.isList,
      PyVal.toJson, PyVal.toJsonList, qType]
  have h := c3_or_group_minimum_should_match dStatus dType qStatus qType
    (some (.int 2)) h1 h2
  exact ⟨h1, h2, h.1, h.2.1 [qStatus.toJson] [] [qType.toJson] []⟩

/-- An item dict with no `value` key — its construction raises and the
child degrades. -/
def dNoValue : CDict :=
  .mk Option.none (some "status") Option.none Option.none Option.none []
    Option.none Option.none Option.none Option.none

/-- A group dict whose only child degrades. -/
def dDegradedGroup : CDict :=
  .mk (some "group") Option.none Option.none Option.none Option.none [dNoValue]
    Option.none Option.none Option.none Option.none

/-- C4: an empty condition list attaches no filter and compiles to null; a
group whose children list is empty or fully degraded compiles to null; and
a condition whose compilation yields null contributes nothing to the
top-level combination — the same output as omitting it entirely. -/
theorem c4_empty_and_degraded_groups (s : SearchDoc) (cond : String)
    (children : List CDict) (msm : Option MsmVal) (conds : List CDict) (c : CDict)
    (hchild : parseChildren children = [])
    (hc : applyCond c = .ok Option.none) :
    applyConditionsSearch [] s = s ∧
    applyConditionsQ [] = Option.none ∧
    parseGroupCore cond children msm = Option.none ∧
    applyCond (.mk (some "group") Option.none Option.none Option.none Option.none
      children Option.none Option.none Option.none Option.none) = .ok Option.none ∧
    applyConditionsQ (conds ++ [c]) = applyConditionsQ conds := by
  have hg : parseGroupCore cond children msm = Option.none := by
    simp [parseGroupCore, hchild]
  refine ⟨rfl, rfl, hg, ?_, ?_⟩
  · have hg2 : parseGroupCore "and" children Option.none = Option.none := by
      simp [parseGroupCore, hchild]
    simp [applyCond, mkConditionGroup, validateGroupFields, validateMSM,
      Except.map, parse_group, hg2]
  · unfold applyConditionsQ
    rw [List.foldl_append, List.foldl_cons, List.foldl_nil]
    simp [applyCondStep, hc]

/-- C4 witness: a fully degraded group contributes nothing next to a normal
sibling. -/
theorem c4_witness :
    parseChildren [dNoValue] = [] ∧
    applyCond dDegradedGroup = .ok Option.none ∧
    parseGroupCore "and" [dNoValue] Option.none = Option.none ∧
    applyConditionsQ [dStatus, dDegradedGroup] = applyConditionsQ [dStatus] := by
  have hchild : parseChildren [dNoValue] = [] := by
    simp [parseChildren, parseChild, dNoValue]
  have hc : applyCond dDegradedGroup = .ok Option.none := by
    simp [applyCond, dDegradedGroup, mkConditionGroup, validateGroupFields,
      validateMSM, Except.map, parse_group, parseGroupCore, hchild]
  have h := c4_empty_and_degraded_groups {} "and" [dNoValue] Option.none [dStatus]
    dDegradedGroup hchild hc
  exact ⟨hchild, hc, h.2.2.1, h.2.2.2.2⟩

/-- C5: for every comparison method, parsing an item whose value is a
scalar produces the same query as parsing it with the singleton list of
that scalar. -/
theorem c5_scalar_singleton_equiv (key method : String) (v : PyVal) (cond : String)
    (h : v.isList = false) :
    parse { key := key, method := method, value := v, condition := cond } =
    parse { key := key, method := method, value := .list [v], condition := cond } := by
  unfold parse
  split_ifs <;> cases v <;>
    simp_all [asList, PyVal.isList, wildcardQ, PyVal.pyStr, List.map]

/-- C5 witness: the `include` method on scalar `"x"` versus `["x"]`. -/
theorem c5_witness :
    (PyVal.str "x").isList = false ∧
    parse { key := "f", method := "include", value := .str "x", condition := "and" } =
    parse { key := "f", method := "include", value := .list [.str "x"],
            condition := "and" } :=
  ⟨rfl, c5_scalar_singleton_equiv "f" "include" (.str "x") "and" rfl⟩

theorem build_add_raw (b : DslQueryBuilder) (r : List (String × Json)) :
    (b.add_aggregation_raw r).build = applyRawAgg b.build r := by
  simp only [DslQueryBuilder.build, DslQueryBuilder.add_aggregation_raw,
    applyAggregations]
  rw [List.foldl_append]
  rfl

/-- C7: adding a raw keyed aggregation fragment and building leaves the
document's filter, query, sort, from and size exactly as without it; the
merge only adds or overwrites the given aggregation key (last write wins on
that key) and leaves every other aggregation key undisturbed. -/
theorem c7_raw_agg_frame (b : DslQueryBuilder) (k k' : String) (v v1 v2 : Json)
    (aggs0 : List (String × Json)) (hk : k' ≠ k) :
    ((b.add_aggregation_raw [(k, v)]).build).filters = (b.build).filters ∧
    ((b.add_aggregation_raw [(k, v)]).build).queries = (b.build).queries ∧
    ((b.add_aggregation_raw [(k, v)]).build).sort = (b.build).sort ∧
    ((b.add_aggregation_raw [(k, v)]).build).from_ = (b.build).from_ ∧
    ((b.add_aggregation_raw [(k, v)]).build).size = (b.build).size ∧
    ((b.add_aggregation_raw [(k, v)]).build).aggs = pyUpdate (b.build).aggs [(k, v)] ∧
    pyLookup ((b.add_aggregation_raw [(k, v)]).build).aggs k = some v ∧
    pyLookup ((b.add_aggregation_raw [(k, v)]).build).aggs k' =
      pyLookup (b.build).aggs k' ∧
    pyLookup (pyUpdate (pyUpdate aggs0 [(k, v1)]) [(k, v2)]) k = some v2 := by
  rw [build_add_raw]
  refine ⟨rfl, rfl, rfl, rfl, rfl, rfl, ?_, ?_, ?_⟩
  · show pyLookup (pyUpdate (b.build).aggs [(k, v)]) k = some v
    simp [pyUpdate, pyLookup_pySet_self]
  · show pyLookup (pyUpdate (b.build).aggs [(k, v)]) k' = pyLookup (b.build).aggs k'
    simp [pyUpdate, pyLookup_pySet_ne _ _ _ _ hk]
  · simp [pyUpdate, pyLookup_pySet_self]

/-- A builder that already carries one raw aggregation fragment. -/
def c7Builder : DslQueryBuilder := { raw_aggregations := [[("first", Json.int 1)]] }

/-- C7 witness: concrete raw-aggregation merge on a builder with an
existing fragment. -/
theorem c7_witness :
    ("first" : String) ≠ "extra" ∧
    ((c7Builder.add_aggregation_raw [("extra", Json.int 2)]).build).from_ =
      (c7Builder.build).from_ ∧
    ((c7Builder.add_aggregation_raw [("extra", Json.int 2)]).build).aggs =
      pyUpdate (c7Builder.build).aggs [("extra", Json.int 2)] ∧
    pyLookup ((c7Builder.add_aggregation_raw [("extra", Json.int 2)]).build).aggs
      "extra" = some (Json.int 2) ∧
    pyLookup ((c7Builder.add_aggregation_raw [("extra", Json.int 2)]).build).aggs
      "first" = pyLookup (c7Builder.build).aggs "first" ∧
    pyLookup (pyUpdate (pyUpdate [] [("k", Json.int 1)]) [("k", Json.int 2)]) "k" =
      some (Json.int 2) := by
  have h := c7_raw_agg_frame c7Builder "extra" "first" (Json.int 2) (Json.int 1)
    (Json.int 2) [] (by decide)
  exact ⟨by decide, h.2.2.2.1, h.2.2.2.2.2.1, h.2.2.2.2.2.2.1,
    h.2.2.2.2.2.2.2.1, h.2.2.2.2.2.2.2.2⟩

/-- C10: a child dict whose constructor validation raises inside the parser
is skipped with its siblings still compiled — the exception never
propagates out of `_parse_children`, `parse_group` or the top-level
condition loop. -/
theorem c10_child_errors_recovered (pre post : List CDict) (c : CDict) (e : PyErr)
    (gcond : String) (gmsm : Option MsmVal)
    (conds conds2 : List CDict) (c2 : CDict) (e2 : PyErr)
    (h : parseChild c = .error e) (h2 : applyCond c2 = .error e2) :
    parseChildren (pre ++ c :: post) = parseChildren (pre ++ post) ∧
    parseGroupCore gcond (pre ++ c :: post) gmsm =
      parseGroupCore gcond (pre ++ post) gmsm ∧
    applyConditionsQ (conds ++ c2 :: conds2) = applyConditionsQ (conds ++ conds2) := by
  have hpc : parseChildren (pre ++ c :: post) = parseChildren (pre ++ post) := by
    induction pre with
    | nil => simp [parseChildren, h]
    | cons a pre ih =>
        simp only [List.cons_append, parseChildren]
        rw [ih]
  refine ⟨hpc, ?_, ?_⟩
  · cases pre with
    | nil =>
        cases post with
        | nil => simp [parseGroupCore, parseChildren, h]
        | cons p ps =>
            simp only [List.nil_append] at hpc
            simp [parseGroupCore, hpc]
    | cons p ps =>
        simp only [List.cons_append] at hpc
        simp [parseGroupCore, hpc]
  · unfold applyConditionsQ
    rw [List.foldl_append, List.foldl_append, List.foldl_cons]
    have hstep : ∀ x, applyCondStep x c2 = x := by
      intro x
      simp [applyCondStep, h2]
    rw [hstep]

/-- An item dict with an invalid combinator token
`{"key": "k", "value": 1, "condition": "xor"}`. -/
def dBadCondition : CDict :=
  .mk Option.none (some "k") Option.none (some (.int 1)) (some "xor") []
    Option.none Option.none Option.none Option.none

/-- A nested dict with a whitespace-only path. -/
def dBlankNested : CDict :=
  .mk (some "nested") Option.none Option.none Option.none Option.none []
    (some " ") Option.none Option.none Option.none

/-- C10 witness: an invalid combinator and a blank nested path are caught
and skipped while the sibling still compiles. -/
theorem c10_witness :
    parseChild dBadCondition = .error (.valueError "Invalid condition: xor") ∧
    applyCond dBlankNested = .error (.valueError "NestedCondition.path cannot be empty") ∧
    parseChildren [dStatus, dBadCondition] = parseChildren [dStatus] ∧
    applyConditionsQ [dStatus, dBlankNested] = applyConditionsQ [dStatus] := by
  have h1 : parseChild dBadCondition = .error (.valueError "Invalid condition: xor") := by
    simp [parseChild, dBadCondition, mkConditionItem]
  have h2 : applyCond dBlankNested =
      .error (.valueError "NestedCondition.path cannot be empty") := by
    simp [applyCond, dBlankNested, mkNestedCondition, validateNestedFields,
      pyStrip, Except.map]
  have h := c10_child_errors_recovered [dStatus] [] dBadCondition
    (.valueError "Invalid condition: xor") "and" Option.none [dStatus] []
    dBlankNested (.valueError "NestedCondition.path cannot be empty") h1 h2
  exact ⟨h1, h2, h.1, h.2.2⟩

end ElasticFlow
